import Mathlib

/-!
Shallow embedding of the `ddefia/defiav1` diagnostic scripts
(`scripts/test_trends.py`, `scripts/explore_smart_trends.py`,
`scripts/fetch_lunarcrush.py`, `scripts/verify_lunar_integrations.py`).

JSON values are modelled by `JValue` (numbers as `Int`; the integer API
fields the scripts sort on are exact, fractional sentiment scores are out
of scope of the claims).  Python `dict.get` is modelled by association-list
lookup.  `print` output is modelled by accumulating the printed strings
into a `List String`, one entry per `print` call.  The network is modelled
by an explicit request-outcome value (`ReqOutcome` for the GET helpers,
`PostOutcome` for the Gemini POST): transport exception, or a response
carrying a status code, raw text, and the result of parsing the body as
JSON.  Python `sorted` / `list.sort` (Timsort) is a stable sort; over the
decidable total preorders used by the scripts the stable sort is unique,
so it is modelled by `List.insertionSort` (structural, hence executable),
with `reverse=True` modelled by sorting with the reversed key order
(Python does not reverse ties, it sorts by the opposite comparison).
-/

namespace Defia

/-- A JSON value as the scripts see it after `res.json()`.  Python `None`,
booleans, numbers, strings, lists and dicts. -/
inductive JValue : Type where
  | null : JValue
  | bool : Bool → JValue
  | num : Int → JValue
  | str : String → JValue
  | arr : List JValue → JValue
  | obj : List (String × JValue) → JValue

/-- Python `dict` lookup (`d[k]` / successful `d.get(k)`): first binding of
the key in the association list, `none` when absent. -/
def pyDictGet : List (String × JValue) → String → Option JValue
  | [], _ => none
  | (k, v) :: rest, key => if k = key then some v else pyDictGet rest key

/-- `x.get(k)` on a record value: field lookup on a dict, `none` (Python
`None`) when the key is absent; non-dict values have no `.get`. -/
def JValue.get : JValue → String → Option JValue
  | .obj fields, key => pyDictGet fields key
  | _, _ => none

/-- `x.get(k, d)`: field lookup with an explicit default. -/
def JValue.getD (v : JValue) (key : String) (d : JValue) : JValue :=
  (v.get key).getD d

/-- The numeric sort-key read `x.get(k, d)` used by the scripts' sort
lambdas: the integer value of field `k`, or the default `d` when the field
is absent.  (The API fields sorted on — `interactions_24h`,
`interactions_total`, `alt_rank` — are integers.) -/
def JValue.getIntD (v : JValue) (key : String) (d : Int) : Int :=
  match v.get key with
  | some (.num n) => n
  | _ => d

/-- Python truthiness (`if x:`) of a JSON value: `None`, `False`, `0`,
`""`, `[]` and `{}` are falsy. -/
def jTruthy : JValue → Bool
  | .null => false
  | .bool b => b
  | .num n => n != 0
  | .str s => s != ""
  | .arr xs => !xs.isEmpty
  | .obj fs => !fs.isEmpty

/-- Python `str()` of a scalar value, as interpolated by f-strings.
Containers are abbreviated (no claim renders a container). -/
def jStr : JValue → String
  | .null => "None"
  | .bool true => "True"
  | .bool false => "False"
  | .num n => toString n
  | .str s => s
  | .arr _ => "<list>"
  | .obj _ => "<dict>"

/-- Python `str()` of the result of `x.get(k)`: `None` prints as `"None"`. -/
def pyStr : Option JValue → String
  | none => "None"
  | some v => jStr v

/-! ### Python `sorted` -/

/-- The ordering used by `sorted(xs, key=key, reverse=True)`: `a` may come
before `b` iff `key b ≤ key a`. -/
def geKey (key : α → Int) : α → α → Prop := fun a b => key b ≤ key a

/-- The ordering used by ascending `sorted` / `list.sort`: `a` may come
before `b` iff `key a ≤ key b`. -/
def leKey (key : α → Int) : α → α → Prop := fun a b => key a ≤ key b

instance (key : α → Int) : DecidableRel (geKey key) := fun _ _ => Int.decLe _ _

instance (key : α → Int) : DecidableRel (leKey key) := fun _ _ => Int.decLe _ _

instance (key : α → Int) : IsTotal α (geKey key) :=
  ⟨fun a b => Int.le_total (key b) (key a)⟩

instance (key : α → Int) : IsTotal α (leKey key) :=
  ⟨fun a b => Int.le_total (key a) (key b)⟩

instance (key : α → Int) : IsTrans α (geKey key) :=
  ⟨fun _ _ _ hab hbc => le_trans hbc hab⟩

instance (key : α → Int) : IsTrans α (leKey key) :=
  ⟨fun _ _ _ hab hbc => le_trans hab hbc⟩

/-- `sorted(xs, key=key, reverse=True)`: the stable descending sort. -/
def pySortDesc (key : α → Int) (xs : List α) : List α :=
  List.insertionSort (geKey key) xs

/-- `xs.sort(key=key)` / `sorted(xs, key=key)`: the stable ascending sort. -/
def pySortAsc (key : α → Int) (xs : List α) : List α :=
  List.insertionSort (leKey key) xs

/-- The "rank and truncate" step shared by the scripts: stable descending
sort by a numeric key, then keep the first `n` records. -/
def rankTruncate (key : α → Int) (n : Nat) (xs : List α) : List α :=
  (pySortDesc key xs).take n

/-! ### Modelled HTTP outcomes -/

/-- Outcome of a `requests.get` call as observed by a script: a transport
exception (with its message), or a response with status code, raw text
(`res.text`), and the result of parsing the body as JSON (`res.json()`
raises on an unparseable body, modelled by `Except.error`). -/
inductive ReqOutcome : Type where
  | failure : String → ReqOutcome
  | response : Nat → String → Except Unit JValue → ReqOutcome

/-- Outcome of the `requests.post` call to the generative-language API. -/
inductive PostOutcome : Type where
  | failure : String → PostOutcome
  | response : Nat → Except Unit JValue → PostOutcome

/-- Static configuration of one HTTP GET call site: url, whether a bearer
`Authorization` header is sent, and the `timeout=` argument (in seconds)
if one is passed. -/
structure GetCall where
  url : String
  bearer : Bool
  timeout : Option Nat
deriving DecidableEq, Repr

def BASE_URL : String := "https://lunarcrush.com/api4/public"

/-! ### `scripts/test_trends.py` -/

namespace TestTrends

/-- The GET issued by `get_json`:
`requests.get(url, headers={'Authorization': ...}, timeout=10)`. -/
def getCall (url : String) : GetCall := ⟨url, true, some 10⟩

/-- `get_json` of `test_trends.py`: on a 200 response return
`res.json().get('data', [])`; on any other status print
`Failed {url}: {status}` and return `[]`; on any exception (transport
error, unparseable body, body without `.get`) print `Error {url}: {e}`
and return `[]`.  Result: (printed lines, returned value). -/
def get_json (url : String) : ReqOutcome → List String × JValue
  | .failure e => (["Error " ++ url ++ ": " ++ e], .arr [])
  | .response status _ body =>
    if status = 200 then
      match body with
      | .ok (.obj fields) => ([], (pyDictGet fields "data").getD (.arr []))
      | .ok _ => (["Error " ++ url ++ ": no attribute get"], .arr [])
      | .error _ => (["Error " ++ url ++ ": invalid json"], .arr [])
    else (["Failed " ++ url ++ ": " ++ toString status], .arr [])

/-- One line of the topics report:
`print(f"   - {t.get('topic', 'N/A')} (Volume: {t.get('social_volume_24h', 0)})")`. -/
def topicLine (t : JValue) : String :=
  "   - " ++ jStr (t.getD "topic" (.str "N/A")) ++ " (Volume: " ++
    jStr (t.getD "social_volume_24h" (.num 0)) ++ ")"

/-- The topics section: `print(f"Found {len(topics)} topics.")` followed by
one line per topic in `topics[:10]`.  (The API `data` payload is a list;
other payload shapes are outside the modelled API surface.) -/
def topicsSection : JValue → List String
  | .arr ts => ("Found " ++ toString ts.length ++ " topics.") :: (ts.take 10).map topicLine
  | _ => []

/-- `ignored = ['BTC', 'ETH', 'USDT', 'USDC', 'SOL']`. -/
def ignored : List String := ["BTC", "ETH", "USDT", "USDC", "SOL"]

/-- `c.get('symbol') not in ignored`, negated: a coin is dropped iff its
`symbol` field is a string equal to one of the ignored symbols (Python
`==` between a string and a missing/non-string value is `False`). -/
def symbolIgnored (c : JValue) : Bool :=
  match c.get "symbol" with
  | some (.str s) => ignored.contains s
  | _ => false

/-- `others = [c for c in coins if c.get('symbol') not in ignored]`. -/
def others (coins : List JValue) : List JValue :=
  coins.filter fun c => !symbolIgnored c

/-- The AltRank sort key `lambda x: x.get('alt_rank', 9999)`. -/
def altRankKey (c : JValue) : Int := c.getIntD "alt_rank" 9999

/-- `others.sort(key=lambda x: x.get('alt_rank', 9999))` (ascending,
lower AltRank first). -/
def othersSorted (coins : List JValue) : List JValue :=
  pySortAsc altRankKey (others coins)

/-- `others[:5]` after the sort: the "Top 5 by AltRank" records. -/
def top5AltRank (coins : List JValue) : List JValue :=
  (othersSorted coins).take 5

/-- One line of the AltRank report. -/
def altRankLine (c : JValue) : String :=
  "   - " ++ pyStr (c.get "name") ++ " (" ++ pyStr (c.get "symbol") ++ ") | AltRank: " ++
    pyStr (c.get "alt_rank") ++ " | Vol24h: " ++ pyStr (c.get "social_volume_24h")

end TestTrends

/-! ### `scripts/explore_smart_trends.py` -/

namespace Explore

/-- The GET issued by `get_json`: `requests.get(url, headers=..., timeout=15)`. -/
def getCall (url : String) : GetCall := ⟨url, true, some 15⟩

/-- `print(f"\n> Fetching: {url}")`. -/
def fetchLine (url : String) : String := "\n> Fetching: " ++ url

/-- `get_json` of `explore_smart_trends.py`: on a 200 response return
`data.get('data', [])`; on any other status print
`❌ Error {status}: {text[:200]}` and return `None`; on any exception
print `❌ Exception: {e}` and return `None`.  Result: (printed lines,
returned value), with `none` for Python `None`. -/
def get_json (url : String) : ReqOutcome → List String × Option JValue
  | .failure e => ([fetchLine url, "❌ Exception: " ++ e], none)
  | .response status text body =>
    if status = 200 then
      match body with
      | .ok (.obj fields) => ([fetchLine url], some ((pyDictGet fields "data").getD (.arr [])))
      | .ok _ => ([fetchLine url, "❌ Exception: no attribute get"], none)
      | .error _ => ([fetchLine url, "❌ Exception: invalid json"], none)
    else ([fetchLine url, "❌ Error " ++ toString status ++ ": " ++ text.take 200], none)

/-- `sorted_topics = sorted(topics, key=lambda x: x.get('interactions_24h', 0), reverse=True)`. -/
def sorted_topics (ts : List JValue) : List JValue :=
  pySortDesc (fun x => x.getIntD "interactions_24h" 0) ts

/-- `top_topics = sorted_topics[:5]`. -/
def top_topics (ts : List JValue) : List JValue :=
  (sorted_topics ts).take 5

/-- One line of the topics report:
`print(f"   - [{topic_id}] (Vol: ..., Interactions: ...)")`. -/
def topicLine (t : JValue) : String :=
  "   - [" ++ pyStr (t.get "topic") ++ "] (Vol: " ++ pyStr (t.get "social_volume_24h") ++
    ", Interactions: " ++ pyStr (t.get "interactions_24h") ++ ")"

/-- The `if topics:` block of section 1 (lines 29–37): when the fetched
value is truthy, print the count line and one line per top topic;
otherwise (Python `None` or an empty list) print nothing at all.
(Non-list truthy payloads are outside the modelled API surface.) -/
def topicsSection : Option JValue → List String
  | some (.arr ts) =>
    if ts.isEmpty then []
    else ("   Found " ++ toString ts.length ++ " topics.") :: (top_topics ts).map topicLine
  | _ => []

end Explore

/-! ### `scripts/fetch_lunarcrush.py` -/

namespace FetchLunar

def LUNAR_URL : String := "https://lunarcrush.com/api4/public/category/cryptocurrencies/news/v1"

/-- The GET issued by `fetch_lunarcrush_data`:
`requests.get(LUNAR_URL, headers=headers)` — note: no `timeout=` argument. -/
def getCall : GetCall := ⟨LUNAR_URL, true, none⟩

/-- `print(f"Fetching data from {LUNAR_URL}...")`. -/
def fetchingLine : String := "Fetching data from " ++ LUNAR_URL ++ "..."

/-- `fetch_lunarcrush_data`: GET, `raise_for_status()` (which raises for
statuses in 400–599), then return the whole parsed body `response.json()`.
On `requests.exceptions.RequestException` (transport error, HTTP error
from `raise_for_status`, or an unparseable body — `JSONDecodeError` is a
`RequestException`) print an error line and return `None`.
Result: (printed lines, returned value). -/
def fetch_lunarcrush_data : ReqOutcome → List String × Option JValue
  | .failure e => ([fetchingLine, "Error fetching LunarCrush data: " ++ e], none)
  | .response status _ body =>
    if 400 ≤ status ∧ status < 600 then
      ([fetchingLine, "Error fetching LunarCrush data: HTTPError " ++ toString status], none)
    else
      match body with
      | .ok v => ([fetchingLine], some v)
      | .error _ => ([fetchingLine, "Error fetching LunarCrush data: invalid json"], none)

/-- One prompt line of `get_ai_analysis`:
`f"- {item.get('post_title')} (Source: {item.get('creator_display_name')},
Sentiment: {item.get('post_sentiment')}, Interactions:
{item.get('interactions_total')})"`. -/
def newsLine (item : JValue) : String :=
  "- " ++ pyStr (item.get "post_title") ++ " (Source: " ++
    pyStr (item.get "creator_display_name") ++ ", Sentiment: " ++
    pyStr (item.get "post_sentiment") ++ ", Interactions: " ++
    pyStr (item.get "interactions_total") ++ ")"

/-- `top_news = news_items[:15]` mapped through the prompt-line template. -/
def newsLines (news_items : List JValue) : List String :=
  (news_items.take 15).map newsLine

/-- `news_text = "\n".join([...])`. -/
def news_text (news_items : List JValue) : String :=
  String.intercalate "\n" (newsLines news_items)

/-- The text of the prompt f-string before `{news_text}`. -/
def promptHead : String :=
  "\n    You are a Chief Marketing Officer (CMO) for a top crypto protocol. \n" ++
  "    Analyze the following recent news headlines and social metrics.\n    \n" ++
  "    DATA:\n    "

/-- The text of the prompt f-string after `{news_text}`. -/
def promptTail : String :=
  "\n    \n    YOUR TASK:\n" ++
  "    1. Identify the single most important narrative driving the market right now.\n" ++
  "    2. Connect the dots between 2-3 seemingly separate stories.\n" ++
  "    3. Provide a brief \"CMO Take strategy\" on how we should position our brand today given this news.\n" ++
  "    \n    Keep it concise, punchy, and actionable. No fluff.\n    "

/-- The full prompt built by `get_ai_analysis`. -/
def prompt (news_items : List JValue) : String :=
  promptHead ++ news_text news_items ++ promptTail

/-- The fixed fallback string returned on failure. -/
def fallback : String := "Could not generate AI analysis."

/-- `result['candidates'][0]['content']['parts'][0]['text']`: `some` the
extracted value when every indexing step succeeds, `none` when any step
would raise (missing key, non-dict, empty or non-list `candidates`/`parts`). -/
def extractCandidateText (v : JValue) : Option JValue :=
  match v.get "candidates" with
  | some (.arr (c0 :: _)) =>
    match c0.get "content" with
    | some content =>
      match content.get "parts" with
      | some (.arr (p0 :: _)) => p0.get "text"
      | _ => none
    | none => none
  | _ => none

/-- `get_ai_analysis`: print `Generating AI Analysis...`, POST the prompt;
on success of the whole `try` block return the first candidate's text;
on any exception (transport error, `raise_for_status` on a 400–599
status, unparseable body, or a body on which the candidate extraction
raises) print an error line and return the fixed fallback string.
Result: (printed lines, returned value). -/
def get_ai_analysis (news_items : List JValue) (post : PostOutcome) : List String × JValue :=
  let gl := "Generating AI Analysis..."
  match post with
  | .failure e => ([gl, "Error generating AI analysis: " ++ e], .str fallback)
  | .response status body =>
    if 400 ≤ status ∧ status < 600 then
      ([gl, "Error generating AI analysis: HTTPError " ++ toString status], .str fallback)
    else
      match body with
      | .error _ => ([gl, "Error generating AI analysis: invalid json"], .str fallback)
      | .ok v =>
        match extractCandidateText v with
        | some t => ([gl], t)
        | none => ([gl, "Error generating AI analysis: missing candidates"], .str fallback)

/-- `sorted_data = sorted(data, key=lambda x: x.get('interactions_total', 0), reverse=True)`. -/
def sorted_data (data : List JValue) : List JValue :=
  pySortDesc (fun x => x.getIntD "interactions_total" 0) data

/-- `sorted_data[:5]`, the records of the "TOP STORIES" report. -/
def top5Stories (data : List JValue) : List JValue :=
  (sorted_data data).take 5

/-- Python `f"{n:,}"`: decimal digits grouped in threes by commas,
applied to the reversed digit string. -/
def groupThrees : List Char → List Char
  | [] => []
  | [a] => [a]
  | [a, b] => [a, b]
  | [a, b, c] => [a, b, c]
  | a :: b :: c :: rest => a :: b :: c :: ',' :: groupThrees rest

/-- Python `f"{n:,}"` for an integer. -/
def commafy (n : Int) : String :=
  let digits := (toString n.natAbs).toList
  let grouped := String.mk (groupThrees digits.reverse).reverse
  if n < 0 then "-" ++ grouped else grouped

/-- The two printed lines for one ranked post of the "TOP STORIES" loop. -/
def storyLines (ip : Nat × JValue) : List String :=
  [toString ip.1 ++ ". " ++ jStr (ip.2.getD "post_title" (.str "No Title")),
   "   └─ " ++ jStr (ip.2.getD "creator_display_name" (.str "Unknown")) ++ " | 🔥 " ++
     commafy (ip.2.getIntD "interactions_total" 0) ++ " interactions"]

/-- The `for i, post in enumerate(sorted_data[:5], 1):` loop output. -/
def topStoriesSection (data : List JValue) : List String :=
  ((top5Stories data).enumFrom 1).flatMap storyLines

def bannerSep : String := "========================================"

def dashSep : String := "------------------------------"

/-- `analyze_data(json_data)`: prints `No valid data found to analyze.`
when the argument is `None`, falsy, or lacks a `data` key; prints
`No posts found.` when the `data` list is empty; otherwise prints the
banner, the AI-analysis section (via `get_ai_analysis` on the sorted
data) and the top-stories section.  `today` stands for
`datetime.now().strftime('%Y-%m-%d')`.  Paths on which the Python code
would raise an uncaught exception (a non-list `data` field reaching
`sorted`, or a non-dict truthy payload reaching `'data' not in`) are
modelled as `none`. -/
def analyze_data (post : PostOutcome) (today : String) (json_data : Option JValue) :
    Option (List String) :=
  match json_data with
  | none => some ["No valid data found to analyze."]
  | some v =>
    if jTruthy v = false then some ["No valid data found to analyze."]
    else
      match v with
      | .obj fields =>
        match pyDictGet fields "data" with
        | none => some ["No valid data found to analyze."]
        | some (.arr data) =>
          if data.isEmpty then some ["No posts found."]
          else
            let ai := get_ai_analysis (sorted_data data) post
            some (["\n" ++ bannerSep,
                   "LUNARCRUSH INTELLIGENCE BRIEF (" ++ today ++ ")",
                   bannerSep] ++
                  ai.1 ++
                  ["\n🧠 AI STRATEGIC ANALYSIS (CMO VIEW):", dashSep, jStr ai.2, dashSep,
                   "\n📰 TOP STORIES (By Market Impact):"] ++
                  topStoriesSection data ++
                  ["\n" ++ bannerSep])
        | some _ => none
      | _ => none

end FetchLunar

/-! ### `scripts/verify_lunar_integrations.py` -/

namespace Verify

/-- The GET issued by `test_endpoint`:
`requests.get(url, headers=headers, timeout=10)`. -/
def getCall (url : String) : GetCall := ⟨url, true, some 10⟩

end Verify

/-- The static configurations of every GET issued by a fetch helper across
the four scripts, at a given endpoint url (the `fetch_lunarcrush.py`
helper always targets its fixed url). -/
def fetchHelperCalls (url : String) : List GetCall :=
  [TestTrends.getCall url, Explore.getCall url, Verify.getCall url, FetchLunar.getCall]

/-- A fetch outcome the spec's error-handling contract covers: a transport
exception, or a response whose status is not 200. -/
def fetchFailed : ReqOutcome → Bool
  | .failure _ => true
  | .response status _ _ => status != 200

/-- The failure cases `get_ai_analysis` actually protects against: a
transport exception, a status `raise_for_status` raises for (400–599),
an unparseable body, or a body on which the candidate extraction raises. -/
def FetchLunar.aiRequestFailed : PostOutcome → Bool
  | .failure _ => true
  | .response status body =>
    (decide (400 ≤ status) && decide (status < 600)) ||
    (match body with
     | .error _ => true
     | .ok v => (FetchLunar.extractCandidateText v).isNone)

/-- A coin record whose `alt_rank` (10000) exceeds the 9999 sentinel. -/
def coinHighAlt : JValue :=
  JValue.obj [("symbol", JValue.str "AAA"), ("alt_rank", JValue.num 10000)]

/-- A coin record with no `alt_rank` field. -/
def coinNoAlt : JValue := JValue.obj [("symbol", JValue.str "BBB")]

/-- A coin record with a small `alt_rank` (5). -/
def coinLowAlt : JValue :=
  JValue.obj [("symbol", JValue.str "CCC"), ("alt_rank", JValue.num 5)]

/-- A coin record carrying one of the excluded symbols. -/
def coinBTC : JValue :=
  JValue.obj [("symbol", JValue.str "BTC"), ("alt_rank", JValue.num 1)]

/-- A coin record whose symbol is outside the excluded set. -/
def coinDOGE : JValue :=
  JValue.obj [("symbol", JValue.str "DOGE"), ("alt_rank", JValue.num 7)]

/-- A well-formed Gemini response body: one candidate carrying a text. -/
def geminiOkBody : JValue :=
  JValue.obj [("candidates", JValue.arr [JValue.obj [("content", JValue.obj
    [("parts", JValue.arr [JValue.obj [("text", JValue.str "Market is risk-on.")]])])]])]

/-! ### Properties of the modelled `sorted` -/

/-- The descending sort returns a permutation of its input. -/
theorem pySortDesc_perm (key : α → Int) (xs : List α) : (pySortDesc key xs).Perm xs :=
  List.perm_insertionSort _ xs

/-- The ascending sort returns a permutation of its input. -/
theorem pySortAsc_perm (key : α → Int) (xs : List α) : (pySortAsc key xs).Perm xs :=
  List.perm_insertionSort _ xs

/-- The descending sort's output is sorted by the key, descending. -/
theorem pySortDesc_sorted (key : α → Int) (xs : List α) :
    (pySortDesc key xs).Pairwise (fun a b => key b ≤ key a) :=
  List.sorted_insertionSort (geKey key) xs

/-- The ascending sort's output is sorted by the key, ascending. -/
theorem pySortAsc_sorted (key : α → Int) (xs : List α) :
    (pySortAsc key xs).Pairwise (fun a b => key a ≤ key b) :=
  List.sorted_insertionSort (leKey key) xs

/-- Stability of the descending sort: the records carrying any fixed key
value appear in the output in their original relative order. -/
theorem pySortDesc_filter_key (key : α → Int) (xs : List α) (c : Int) :
    (pySortDesc key xs).filter (fun a => key a == c) = xs.filter (fun a => key a == c) := by
  have hmem : ∀ a ∈ xs.filter (fun a => key a == c), key a = c := by
    intro a ha
    simpa using List.of_mem_filter ha
  have hpair : (xs.filter (fun a => key a == c)).Pairwise (geKey key) := by
    apply List.pairwise_of_forall_mem_list
    intro a ha b hb
    have h1 := hmem a ha
    have h2 := hmem b hb
    simp [geKey, h1, h2]
  have hsub : List.Sublist (xs.filter (fun a => key a == c)) (pySortDesc key xs) :=
    List.sublist_insertionSort hpair (List.filter_sublist xs)
  have hsub2 : List.Sublist (xs.filter (fun a => key a == c))
      ((pySortDesc key xs).filter (fun a => key a == c)) := by
    have hself : (xs.filter (fun a => key a == c)).filter (fun a => key a == c) =
        xs.filter (fun a => key a == c) :=
      List.filter_eq_self.mpr (fun a ha => (List.mem_filter.mp ha).2)
    have h := hsub.filter (fun a => key a == c)
    rwa [hself] at h
  have hlen : ((pySortDesc key xs).filter (fun a => key a == c)).length =
      (xs.filter (fun a => key a == c)).length :=
    ((pySortDesc_perm key xs).filter _).length_eq
  exact (hsub2.eq_of_length hlen.symm).symm

/-- Sorting an already descending-sorted list does not change it. -/
theorem pySortDesc_of_sorted (key : α → Int) {xs : List α}
    (h : xs.Pairwise (fun a b => key b ≤ key a)) : pySortDesc key xs = xs :=
  List.Sorted.insertionSort_eq h

/-- Rank-and-truncate is idempotent. -/
theorem rankTruncate_idem (key : α → Int) (n : Nat) (xs : List α) :
    rankTruncate key n (rankTruncate key n xs) = rankTruncate key n xs := by
  unfold rankTruncate
  have hs : (pySortDesc key xs).Pairwise (fun a b => key b ≤ key a) :=
    pySortDesc_sorted key xs
  have ht : ((pySortDesc key xs).take n).Pairwise (fun a b => key b ≤ key a) :=
    List.Pairwise.sublist (List.take_sublist n _) hs
  rw [pySortDesc_of_sorted key ht, List.take_take, Nat.min_self]

/-! ### Claim C1 — error handling of the GET helpers -/

/-- **C1, counterexample.** On an HTTP 500 response the fetch helper of
`explore_smart_trends.py` returns Python `None`, which is not an empty
sequence. -/
theorem explore_get_json_500_returns_none :
    (Explore.get_json (BASE_URL ++ "/topics/list/v1")
        (ReqOutcome.response 500 "Internal Server Error" (Except.ok (JValue.obj [])))).2 =
      none ∧
    (Explore.get_json (BASE_URL ++ "/topics/list/v1")
        (ReqOutcome.response 500 "Internal Server Error" (Except.ok (JValue.obj [])))).2 ≠
      some (JValue.arr []) :=
  ⟨rfl, fun h => Option.noConfusion h⟩

/-- **C1 (amended).** On any non-200 status or transport exception,
neither GET helper raises and both log a failure line; the
`test_trends.py` helper returns the empty list while the
`explore_smart_trends.py` helper returns `None`, and in both scripts the
downstream topics rendering then produces an empty report (only the
zero-count line in `test_trends.py`, nothing in
`explore_smart_trends.py`). -/
theorem get_json_fail_soft (url : String) (o : ReqOutcome) (h : fetchFailed o = true) :
    (TestTrends.get_json url o).2 = JValue.arr [] ∧
    (TestTrends.get_json url o).1.length = 1 ∧
    TestTrends.topicsSection (TestTrends.get_json url o).2 = ["Found 0 topics."] ∧
    (Explore.get_json url o).2 = none ∧
    (Explore.get_json url o).1.length = 2 ∧
    Explore.topicsSection (Explore.get_json url o).2 = [] := by
  cases o with
  | failure e => exact ⟨rfl, rfl, rfl, rfl, rfl, rfl⟩
  | response status text body =>
    have hs : ¬ status = 200 := by simpa [fetchFailed] using h
    have h1 : (TestTrends.get_json url (.response status text body)).2 = JValue.arr [] := by
      simp [TestTrends.get_json, hs]
    have h4 : (Explore.get_json url (.response status text body)).2 = none := by
      simp [Explore.get_json, hs]
    refine ⟨h1, ?_, ?_, h4, ?_, ?_⟩
    · simp [TestTrends.get_json, hs]
    · rw [h1]; rfl
    · simp [Explore.get_json, hs]
    · rw [h4]; rfl

/-- Witness for `get_json_fail_soft` at a concrete 500 outcome. -/
theorem get_json_fail_soft_witness :
    fetchFailed (ReqOutcome.response 500 "Internal Server Error"
      (Except.ok (JValue.obj []))) = true ∧
    (TestTrends.get_json (BASE_URL ++ "/topics/list/v1")
        (ReqOutcome.response 500 "Internal Server Error" (Except.ok (JValue.obj [])))).2 =
      JValue.arr [] :=
  ⟨rfl, (get_json_fail_soft (BASE_URL ++ "/topics/list/v1")
    (ReqOutcome.response 500 "Internal Server Error" (Except.ok (JValue.obj []))) rfl).1⟩

/-! ### Claim C2 — the ranking/filtering step -/

/-- **C2.** For every record sequence and numeric key accessor the
ranking step yields the stable descending sort truncated to the first N:
the sorted list is a permutation of the input, is sorted by the key
descending, and records with equal keys keep their original relative
order; the cited script steps (`top_topics` in `explore_smart_trends.py`,
`sorted_data[:5]` in `fetch_lunarcrush.py`) are instances with the
hardcoded N = 5 ∈ {3, 5, 10}; a record missing the key reads as 0. -/
theorem ranking_step_spec {α : Type} (key : α → Int) (xs : List α) (n : Nat)
    (ts data : List JValue) (r : JValue) (hr : r.get "interactions_24h" = none) :
    rankTruncate key n xs = (pySortDesc key xs).take n ∧
    (pySortDesc key xs).Perm xs ∧
    (pySortDesc key xs).Pairwise (fun a b => key b ≤ key a) ∧
    (∀ c : Int, (pySortDesc key xs).filter (fun a => key a == c) =
      xs.filter (fun a => key a == c)) ∧
    Explore.top_topics ts =
      rankTruncate (fun x => x.getIntD "interactions_24h" 0) 5 ts ∧
    FetchLunar.top5Stories data =
      rankTruncate (fun x => x.getIntD "interactions_total" 0) 5 data ∧
    (5 : Nat) ∈ ([3, 5, 10] : List Nat) ∧
    r.getIntD "interactions_24h" 0 = 0 := by
  refine ⟨rfl, pySortDesc_perm key xs, pySortDesc_sorted key xs,
    fun c => pySortDesc_filter_key key xs c, rfl, rfl, by decide, ?_⟩
  simp [JValue.getIntD, hr]

/-- Witness for `ranking_step_spec` at a concrete record with the key
absent. -/
theorem ranking_step_spec_witness :
    JValue.get (JValue.obj []) "interactions_24h" = none ∧
    (pySortDesc (fun x => JValue.getIntD x "interactions_24h" 0)
      [JValue.obj []]).Perm [JValue.obj []] :=
  ⟨rfl, (ranking_step_spec (fun x => JValue.getIntD x "interactions_24h" 0)
    [JValue.obj []] 5 [] [] (JValue.obj []) rfl).2.1⟩

/-! ### Claim C3 — what the helpers return on HTTP 200 -/

/-- **C3, counterexample.** On HTTP 200, `fetch_lunarcrush_data` returns
the entire parsed JSON body, not the value of its `data` field: with body
`{"data": []}` it returns the whole object, which differs from the `data`
field's value `[]`. -/
theorem fetch_lunarcrush_returns_whole_body :
    (FetchLunar.fetch_lunarcrush_data (ReqOutcome.response 200 ""
        (Except.ok (JValue.obj [("data", JValue.arr [])])))).2 =
      some (JValue.obj [("data", JValue.arr [])]) ∧
    (FetchLunar.fetch_lunarcrush_data (ReqOutcome.response 200 ""
        (Except.ok (JValue.obj [("data", JValue.arr [])])))).2 ≠
      some (JValue.arr []) := by
  refine ⟨rfl, fun h => ?_⟩
  have h2 := Option.some.inj h
  exact JValue.noConfusion h2

/-- **C3 (amended).** On HTTP 200 with a parsed JSON object body, the two
`get_json` helpers return the body's `data` field, defaulting to the
empty list when it is absent, while `fetch_lunarcrush_data` returns the
whole parsed body unchanged. -/
theorem helpers_on_200 (url text : String) (fields : List (String × JValue))
    (d : Option JValue) (hd : pyDictGet fields "data" = d) :
    (TestTrends.get_json url (ReqOutcome.response 200 text
        (Except.ok (JValue.obj fields)))).2 = d.getD (JValue.arr []) ∧
    (Explore.get_json url (ReqOutcome.response 200 text
        (Except.ok (JValue.obj fields)))).2 = some (d.getD (JValue.arr [])) ∧
    (FetchLunar.fetch_lunarcrush_data (ReqOutcome.response 200 text
        (Except.ok (JValue.obj fields)))).2 = some (JValue.obj fields) := by
  subst hd
  exact ⟨rfl, rfl, rfl⟩

/-- Witness for `helpers_on_200` at a concrete body carrying a `data`
field. -/
theorem helpers_on_200_witness :
    pyDictGet [("data", JValue.arr [JValue.num 1])] "data" =
      some (JValue.arr [JValue.num 1]) ∧
    (TestTrends.get_json (BASE_URL ++ "/topics/list/v1") (ReqOutcome.response 200 ""
        (Except.ok (JValue.obj [("data", JValue.arr [JValue.num 1])])))).2 =
      (some (JValue.arr [JValue.num 1])).getD (JValue.arr []) :=
  ⟨rfl, (helpers_on_200 (BASE_URL ++ "/topics/list/v1") ""
    [("data", JValue.arr [JValue.num 1])] (some (JValue.arr [JValue.num 1])) rfl).1⟩

/-! ### Claim C4 — rendering of a 200 response with `data: []` -/

/-- **C4, counterexample.** A 200 response with `data: []` makes the
`explore_smart_trends.py` helper return the empty list, and the
downstream topics rendering then prints nothing at all — no "no data"
message of any kind. -/
theorem explore_empty_data_prints_nothing :
    (Explore.get_json (BASE_URL ++ "/topics/list/v1") (ReqOutcome.response 200 ""
        (Except.ok (JValue.obj [("data", JValue.arr [])])))).2 = some (JValue.arr []) ∧
    Explore.topicsSection (some (JValue.arr [])) = [] :=
  ⟨rfl, rfl⟩

/-- **C4 (amended).** On a 200 response whose body carries `data: []`,
`fetch_lunarcrush.py` prints the explicit message `No posts found.` and
`test_trends.py` prints the zero-count line `Found 0 topics.`, while
`explore_smart_trends.py` skips its topics section without printing any
message. -/
theorem empty_data_rendering (post : PostOutcome) (today : String) :
    FetchLunar.analyze_data post today (some (JValue.obj [("data", JValue.arr [])])) =
      some ["No posts found."] ∧
    TestTrends.topicsSection (TestTrends.get_json (BASE_URL ++ "/topics/list/v1")
        (ReqOutcome.response 200 "" (Except.ok (JValue.obj [("data", JValue.arr [])])))).2 =
      ["Found 0 topics."] ∧
    Explore.topicsSection (some (JValue.arr [])) = [] :=
  ⟨rfl, rfl, rfl⟩

/-! ### Claim C5 — idempotence of rank-and-truncate -/

/-- **C5.** Rank-and-truncate is idempotent: applied to a sequence that is
already its own top-N ranked output it returns that sequence unchanged;
in particular the two script instances are idempotent. -/
theorem rank_and_truncate_idempotent {α : Type} (key : α → Int) (n : Nat) (xs : List α)
    (ts data : List JValue) :
    rankTruncate key n (rankTruncate key n xs) = rankTruncate key n xs ∧
    Explore.top_topics (Explore.top_topics ts) = Explore.top_topics ts ∧
    FetchLunar.top5Stories (FetchLunar.top5Stories data) = FetchLunar.top5Stories data := by
  refine ⟨rankTruncate_idem key n xs, ?_, ?_⟩
  · exact rankTruncate_idem (fun x => x.getIntD "interactions_24h" 0) 5 ts
  · exact rankTruncate_idem (fun x => x.getIntD "interactions_total" 0) 5 data

/-! ### Claim C6 — missing-key defaults and the AltRank sentinel -/

/-- **C6, counterexample.** Under the 9999 sentinel, the ascending AltRank
sort places a record *missing* `alt_rank` before a record whose
`alt_rank` is 10000, so a record missing the key does not sort after
every record that has a value. -/
theorem altrank_sentinel_not_last :
    JValue.get coinNoAlt "alt_rank" = none ∧
    JValue.get coinHighAlt "alt_rank" = some (JValue.num 10000) ∧
    TestTrends.othersSorted [coinHighAlt, coinNoAlt] = [coinNoAlt, coinHighAlt] :=
  ⟨rfl, rfl, rfl⟩

/-- **C6 (amended).** A record missing the ranking key reads as the
default — 0 for the descending sorts and the sentinel 9999 for the
ascending AltRank sort — without raising, and in the sorted AltRank
output a record missing `alt_rank` never precedes a record whose
`alt_rank` value is strictly below the sentinel. -/
theorem missing_key_defaults (r : JValue) (hk : r.get "interactions_24h" = none)
    (ha : r.get "alt_rank" = none) (coins : List JValue) (i j : Nat)
    (hi : i < (TestTrends.othersSorted coins).length)
    (hj : j < (TestTrends.othersSorted coins).length)
    (hmiss : ((TestTrends.othersSorted coins).get ⟨i, hi⟩).get "alt_rank" = none)
    (hval : TestTrends.altRankKey ((TestTrends.othersSorted coins).get ⟨j, hj⟩) < 9999) :
    r.getIntD "interactions_24h" 0 = 0 ∧
    TestTrends.altRankKey r = 9999 ∧
    j < i := by
  refine ⟨by simp [JValue.getIntD, hk], by simp [TestTrends.altRankKey, JValue.getIntD, ha], ?_⟩
  have hkey_i : TestTrends.altRankKey ((TestTrends.othersSorted coins).get ⟨i, hi⟩) = 9999 := by
    simp only [List.get_eq_getElem] at hmiss
    simp [TestTrends.altRankKey, JValue.getIntD, hmiss]
  by_contra hji
  push_neg at hji
  rcases Nat.lt_or_ge i j with hij | hij
  · have hsorted : (TestTrends.othersSorted coins).Pairwise
        (fun a b => TestTrends.altRankKey a ≤ TestTrends.altRankKey b) :=
      pySortAsc_sorted TestTrends.altRankKey (TestTrends.others coins)
    have hle := List.pairwise_iff_get.mp hsorted ⟨i, hi⟩ ⟨j, hj⟩ hij
    rw [hkey_i] at hle
    exact absurd (lt_of_le_of_lt hle hval) (by omega)
  · have hij2 : i = j := Nat.le_antisymm hji hij
    subst hij2
    rw [hkey_i] at hval
    exact absurd hval (by omega)

/-- Witness for `missing_key_defaults`: in `[coinNoAlt, coinLowAlt]` the
sorted output is `[coinLowAlt, coinNoAlt]`, so the record missing
`alt_rank` sits at index 1, after the low-ranked record at index 0. -/
theorem missing_key_defaults_witness :
    JValue.get coinNoAlt "interactions_24h" = none ∧
    TestTrends.altRankKey coinNoAlt = 9999 ∧ (0 : Nat) < 1 :=
  have h := missing_key_defaults coinNoAlt rfl rfl [coinNoAlt, coinLowAlt] 1 0
    (by decide) (by decide) rfl (by decide)
  ⟨rfl, h.2.1, h.2.2⟩

/-! ### Claim C7 — GET timeouts -/

/-- **C7, counterexample.** One fetch-helper GET, the one issued by
`fetch_lunarcrush_data`, carries no timeout argument at all. -/
theorem fetch_lunarcrush_no_timeout :
    FetchLunar.getCall ∈ fetchHelperCalls BASE_URL ∧
    FetchLunar.getCall.timeout = none :=
  ⟨by decide, rfl⟩

/-- **C7 (amended).** The GETs of the `get_json` helpers and of
`test_endpoint` carry fixed timeouts of 10, 15 and 10 seconds (all within
10–15), while the GET of `fetch_lunarcrush_data` carries no timeout and
so may block indefinitely. -/
theorem fetch_helper_timeouts (url : String) :
    (TestTrends.getCall url).timeout = some 10 ∧
    (Explore.getCall url).timeout = some 15 ∧
    (Verify.getCall url).timeout = some 10 ∧
    FetchLunar.getCall.timeout = none :=
  ⟨rfl, rfl, rfl, rfl⟩

/-! ### Claim C8 — the prompt builder -/

/-- **C8.** For every news list of at least 15 items, the prompt builder
embeds exactly the first 15 records, one prompt line per record joined by
newlines inside the fixed prompt text, each line interpolating the
record's title, source, sentiment and interaction values exactly as
present in the record. -/
theorem prompt_builder_top15 (items : List JValue) (h : 15 ≤ items.length) :
    (FetchLunar.newsLines items).length = 15 ∧
    FetchLunar.news_text items = String.intercalate "\n" (FetchLunar.newsLines items) ∧
    FetchLunar.prompt items =
      FetchLunar.promptHead ++ FetchLunar.news_text items ++ FetchLunar.promptTail ∧
    ∀ i, i < 15 → (FetchLunar.newsLines items).getD i "" =
      "- " ++ pyStr ((items.getD i (JValue.obj [])).get "post_title") ++ " (Source: " ++
      pyStr ((items.getD i (JValue.obj [])).get "creator_display_name") ++ ", Sentiment: " ++
      pyStr ((items.getD i (JValue.obj [])).get "post_sentiment") ++ ", Interactions: " ++
      pyStr ((items.getD i (JValue.obj [])).get "interactions_total") ++ ")" := by
  refine ⟨?_, rfl, rfl, ?_⟩
  · simp [FetchLunar.newsLines]
    omega
  · intro i hilt
    have hlen : i < items.length := lt_of_lt_of_le hilt h
    have h1 : (FetchLunar.newsLines items).getD i "" =
        FetchLunar.newsLine (items.getD i (JValue.obj [])) := by
      simp [FetchLunar.newsLines, List.getD_eq_getElem?_getD, List.getElem?_map,
        List.getElem?_take_of_lt hilt, List.getElem?_eq_getElem hlen]
    rw [h1]
    rfl

/-- Witness for `prompt_builder_top15` at a concrete 15-item list. -/
theorem prompt_builder_top15_witness :
    15 ≤ (List.replicate 15 (JValue.obj [])).length ∧
    (FetchLunar.newsLines (List.replicate 15 (JValue.obj []))).length = 15 :=
  ⟨by simp, (prompt_builder_top15 (List.replicate 15 (JValue.obj [])) (by simp)).1⟩

/-! ### Claim C9 — fallback behaviour of the narrative-summary requester -/

/-- **C9, counterexample.** A response with the non-2xx status 304 and a
well-formed candidates body makes `get_ai_analysis` return the extracted
candidate text, not the fixed fallback string: `raise_for_status` raises
only for statuses 400–599, so this non-2xx status is not treated as a
failure. -/
theorem get_ai_analysis_304_not_fallback :
    (FetchLunar.get_ai_analysis [] (PostOutcome.response 304 (Except.ok geminiOkBody))).2 =
      JValue.str "Market is risk-on." ∧
    "Market is risk-on." ≠ FetchLunar.fallback :=
  ⟨rfl, by decide⟩

/-- **C9 (amended).** On every failure `get_ai_analysis` actually guards
against — transport error, status 400–599, unparseable body, or a body
lacking the expected candidates structure — it returns the fixed fallback
string and logs an error line, propagating nothing to its caller. -/
theorem get_ai_analysis_fail_fallback (news_items : List JValue) (post : PostOutcome)
    (h : FetchLunar.aiRequestFailed post = true) :
    (FetchLunar.get_ai_analysis news_items post).2 = JValue.str FetchLunar.fallback ∧
    (FetchLunar.get_ai_analysis news_items post).1.length = 2 := by
  cases post with
  | failure e => exact ⟨rfl, rfl⟩
  | response status body =>
    cases body with
    | error u =>
      by_cases hs : 400 ≤ status ∧ status < 600 <;>
        exact ⟨by simp [FetchLunar.get_ai_analysis, hs],
               by simp [FetchLunar.get_ai_analysis, hs]⟩
    | ok v =>
      by_cases hs : 400 ≤ status ∧ status < 600
      · exact ⟨by simp [FetchLunar.get_ai_analysis, hs],
               by simp [FetchLunar.get_ai_analysis, hs]⟩
      · have hv : FetchLunar.extractCandidateText v = none := by
          simp [FetchLunar.aiRequestFailed] at h
          rcases h with h | h
          · exact absurd h hs
          · exact h
        exact ⟨by simp [FetchLunar.get_ai_analysis, hs, hv],
               by simp [FetchLunar.get_ai_analysis, hs, hv]⟩

/-- Witness for `get_ai_analysis_fail_fallback` at a transport failure. -/
theorem get_ai_analysis_fail_fallback_witness :
    FetchLunar.aiRequestFailed (PostOutcome.failure "timeout") = true ∧
    (FetchLunar.get_ai_analysis [] (PostOutcome.failure "timeout")).2 =
      JValue.str FetchLunar.fallback :=
  ⟨rfl, (get_ai_analysis_fail_fallback [] (PostOutcome.failure "timeout") rfl).1⟩

/-! ### Claim C10 — the AltRank report excludes the major symbols -/

/-- **C10.** Every record of the "Top 5 by AltRank" output has a symbol
outside the exclusion set `['BTC', 'ETH', 'USDT', 'USDC', 'SOL']`, and
the ranked report is computed only over the records whose symbol is not
excluded. -/
theorem top5_altrank_excludes_majors (coins : List JValue) (r : JValue)
    (hr : r ∈ TestTrends.top5AltRank coins) :
    TestTrends.symbolIgnored r = false ∧
    (∀ s : String, r.get "symbol" = some (JValue.str s) → s ∉ TestTrends.ignored) ∧
    TestTrends.others coins = coins.filter (fun c => !TestTrends.symbolIgnored c) := by
  have h1 : r ∈ TestTrends.othersSorted coins := List.mem_of_mem_take hr
  have h2 : r ∈ TestTrends.others coins :=
    (pySortAsc_perm TestTrends.altRankKey (TestTrends.others coins)).mem_iff.mp h1
  have h4 : TestTrends.symbolIgnored r = false := by
    simpa using (List.mem_filter.mp h2).2
  refine ⟨h4, ?_, rfl⟩
  intro s hs hmem
  have h5 : s ∉ TestTrends.ignored := by
    have h6 := h4
    simp [TestTrends.symbolIgnored, hs] at h6
    exact h6
  exact h5 hmem

/-- Witness for `top5_altrank_excludes_majors`: with one excluded and one
allowed coin, the allowed coin is the whole top-5 output. -/
theorem top5_altrank_excludes_majors_witness :
    coinDOGE ∈ TestTrends.top5AltRank [coinBTC, coinDOGE] ∧
    TestTrends.symbolIgnored coinDOGE = false :=
  have hm : coinDOGE ∈ TestTrends.top5AltRank [coinBTC, coinDOGE] := by
    show coinDOGE ∈ [coinDOGE]
    exact List.mem_singleton.mpr rfl
  ⟨hm, (top5_altrank_excludes_majors [coinBTC, coinDOGE] coinDOGE hm).1⟩

end Defia
